import Mathlib

/-!
Shallow embedding of the ChainPlusTrader trade-execution core
(TradingService, DEX adapters, retry engine, storage and scheduler),
with theorems checking the natural-language specification against it.

Conventions used throughout:
* JavaScript numbers are modelled as `ℚ` (the source keeps all monetary
  arithmetic within exactly representable ranges; rounding performed by
  `toFixed(n)` is modelled explicitly by `jsToFixed`).
* A fallible external call is an `Except`/`Option` value supplied by an
  environment record, so the code's `try`/`catch` branches become `match`es.
* `undefined`/missing record fields are `Option.none`.
-/

namespace ChainPlus

/-- The closed set of networks (shared/schema.ts `NetworkType`). -/
inductive Network where
  | ETH | BASE | BNB | SOL
deriving DecidableEq, Repr

/-- `Number.prototype.toFixed n` on a rational: round to `n` decimal places,
ties away from zero for the positive values used here (half-up). -/
def jsToFixed (n : ℕ) (q : ℚ) : ℚ := (⌊q * 10 ^ n + 1 / 2⌋ : ℚ) / 10 ^ n

/-- `Math.floor`. -/
def jsFloor (q : ℚ) : ℤ := ⌊q⌋

/-- `Math.round` (half up), used to state the spec's `round(slippage × 100)`. -/
def jsRound (q : ℚ) : ℤ := ⌊q + 1 / 2⌋

/-- `toFixed n` is the identity on rationals already having at most `n`
decimal places (as all the schema's fixed-scale decimals do). -/
theorem jsToFixed_eq_self {n : ℕ} {q : ℚ} (h : ∃ z : ℤ, q * 10 ^ n = z) :
    jsToFixed n q = q := by
  obtain ⟨z, hz⟩ := h
  have hpow : (10 : ℚ) ^ n ≠ 0 := by positivity
  unfold jsToFixed
  rw [hz, Int.floor_int_add]
  have : ⌊(1 : ℚ) / 2⌋ = 0 := by norm_num
  rw [this, add_zero]
  field_simp at hz ⊢
  linarith [hz]

/-! ### Retry engine (server/utils/retry.ts) -/

/-- `String.prototype.toLowerCase` (ASCII range, which covers every string
compared by the retry engine). -/
def jsToLower (s : String) : String := ⟨s.data.map Char.toLower⟩

/-- `pat.isPrefixOf` tested at every suffix of the haystack:
JavaScript `String.prototype.includes`. -/
def strIncludesAux (pat : List Char) : List Char → Bool
  | [] => pat.isEmpty
  | c :: rest => pat.isPrefixOf (c :: rest) || strIncludesAux pat rest

/-- `s.includes pat` on strings. -/
def strIncludes (s pat : String) : Bool := strIncludesAux pat.data s.data

/-- `RetryOptions` after merging with a profile (all fields present). -/
structure RetryOptions where
  maxRetries : ℕ
  initialDelayMs : ℚ
  maxDelayMs : ℚ
  backoffMultiplier : ℚ
  retryableErrors : List String
deriving Repr

/-- `DEFAULT_OPTIONS` of retry.ts. -/
def DEFAULT_OPTIONS : RetryOptions :=
  { maxRetries := 3
    initialDelayMs := 1000
    maxDelayMs := 10000
    backoffMultiplier := 2
    retryableErrors :=
      ["429", "rate limit", "too many requests", "ECONNRESET", "ETIMEDOUT", "ENOTFOUND"] }

/-- `BASE_NETWORK_OPTIONS` of retry.ts. -/
def BASE_NETWORK_OPTIONS : RetryOptions :=
  { maxRetries := 5
    initialDelayMs := 2500
    maxDelayMs := 20000
    backoffMultiplier := 2.5
    retryableErrors :=
      ["429", "rate limit", "too many requests", "ECONNRESET", "ETIMEDOUT", "ENOTFOUND"] }

/-- `isRetryableError`: the lower-cased message contains one of the
lower-cased retryable markers. -/
def isRetryableError (e : String) (retryableErrors : List String) : Bool :=
  retryableErrors.any fun r => strIncludes (jsToLower e) (jsToLower r)

/-- The loop body of `retryWithBackoff`: `op i` is what the wrapped
operation's `i`-th invocation produces (0-indexed); `remaining` is
`opts.maxRetries - attempt`.  Backoff delays do not affect the value and
are not modelled. -/
def retryFrom {α : Type} (op : ℕ → Except String α) (retryableErrors : List String)
    (attempt : ℕ) : ℕ → Except String α
  | 0 =>
    match op attempt with
    | .ok v => .ok v
    | .error e => .error e
  | r + 1 =>
    match op attempt with
    | .ok v => .ok v
    | .error e =>
      if isRetryableError e retryableErrors then
        retryFrom op retryableErrors (attempt + 1) r
      else .error e

/-- `retryWithBackoff fn opts` (value behaviour). -/
def retryWithBackoff {α : Type} (op : ℕ → Except String α) (opts : RetryOptions) :
    Except String α :=
  retryFrom op opts.retryableErrors 0 opts.maxRetries

/-- Number of invocations of the wrapped operation performed by
`retryFrom` from the same starting point. -/
def retryCalls {α : Type} (op : ℕ → Except String α) (retryableErrors : List String)
    (attempt : ℕ) : ℕ → ℕ
  | 0 => 1
  | r + 1 =>
    match op attempt with
    | .ok _ => 1
    | .error e =>
      if isRetryableError e retryableErrors then
        1 + retryCalls op retryableErrors (attempt + 1) r
      else 1

/-- Total invocations of `retryWithBackoff` on a profile. -/
def retryCallsTotal {α : Type} (op : ℕ → Except String α) (opts : RetryOptions) : ℕ :=
  retryCalls op opts.retryableErrors 0 opts.maxRetries

theorem retryCalls_le {α : Type} (op : ℕ → Except String α) (re : List String) :
    ∀ r a, retryCalls op re a r ≤ r + 1 := by
  intro r
  induction r with
  | zero => intro a; simp [retryCalls]
  | succ r ih =>
    intro a
    unfold retryCalls
    cases h : op a with
    | ok v => simp
    | error e =>
      by_cases hr : isRetryableError e re
      · have := ih (a + 1)
        simp only [hr, if_true]
        omega
      · simp [hr]

theorem retryFrom_ok {α : Type} {op : ℕ → Except String α} {re : List String}
    {a : ℕ} {v : α} (h : op a = .ok v) : ∀ r, retryFrom op re a r = .ok v := by
  intro r; cases r <;> simp [retryFrom, h]

theorem retryFrom_nonretryable {α : Type} {op : ℕ → Except String α} {re : List String}
    {a : ℕ} {e : String} (h : op a = .error e) (hnr : isRetryableError e re = false) :
    ∀ r, retryFrom op re a r = .error e := by
  intro r; cases r <;> simp [retryFrom, h, hnr]

theorem retryFrom_step {α : Type} {op : ℕ → Except String α} {re : List String}
    {a : ℕ} {e : String} (h : op a = .error e) (hr : isRetryableError e re = true) (r : ℕ) :
    retryFrom op re a (r + 1) = retryFrom op re (a + 1) r := by
  simp [retryFrom, h, hr]

theorem retryFrom_last {α : Type} {op : ℕ → Except String α} {re : List String}
    {a : ℕ} {e : String} (h : op a = .error e) :
    retryFrom op re a 0 = .error e := by
  simp [retryFrom, h]

theorem retryCalls_ok {α : Type} {op : ℕ → Except String α} {re : List String}
    {a : ℕ} {v : α} (h : op a = .ok v) : ∀ r, retryCalls op re a r = 1 := by
  intro r; cases r <;> simp [retryCalls, h]

theorem retryCalls_nonretryable {α : Type} {op : ℕ → Except String α} {re : List String}
    {a : ℕ} {e : String} (h : op a = .error e) (hnr : isRetryableError e re = false) :
    ∀ r, retryCalls op re a r = 1 := by
  intro r; cases r <;> simp [retryCalls, h, hnr]

theorem retryCalls_step {α : Type} {op : ℕ → Except String α} {re : List String}
    {a : ℕ} {e : String} (h : op a = .error e) (hr : isRetryableError e re = true) (r : ℕ) :
    retryCalls op re a (r + 1) = 1 + retryCalls op re (a + 1) r := by
  simp [retryCalls, h, hr]

/-- The operation of spec §8: fails with "HTTP 429" twice, succeeds on the
third invocation. -/
def opTwice429 : ℕ → Except String Unit :=
  fun i => if i < 2 then .error "HTTP 429" else .ok ()

/-- The operation of spec §8: fails with "HTTP 429" on every invocation. -/
def opAlways429 : ℕ → Except String Unit :=
  fun i => .error ("HTTP 429 on attempt " ++ toString (i + 1))

/-- Skipping over `i` initial retryable failures. -/
theorem retryFrom_skip {α : Type} (op : ℕ → Except String α) (re : List String) :
    ∀ (i a r : ℕ), i ≤ r →
      (∀ j, j < i → ∃ e, op (a + j) = .error e ∧ isRetryableError e re = true) →
      retryFrom op re a r = retryFrom op re (a + i) (r - i) ∧
      retryCalls op re a r = i + retryCalls op re (a + i) (r - i) := by
  intro i
  induction i with
  | zero => intro a r _ _; simp
  | succ i ih =>
    intro a r hir hprev
    obtain ⟨e, he, hre⟩ := hprev 0 (Nat.succ_pos i)
    rw [Nat.add_zero] at he
    obtain ⟨r', rfl⟩ : ∃ r', r = r' + 1 := ⟨r - 1, by omega⟩
    have h1 := retryFrom_step he hre r'
    have h2 := retryCalls_step he hre r'
    have ihh := ih (a + 1) r' (by omega) (fun j hj => by
      have := hprev (j + 1) (by omega)
      rwa [show a + (j + 1) = a + 1 + j from by omega] at this)
    have ha : a + 1 + i = a + (i + 1) := by omega
    have hb : r' - i = r' + 1 - (i + 1) := by omega
    constructor
    · rw [h1, ihh.1, ha, hb]
    · rw [h2, ihh.2, ha, hb]
      omega

/-- C4: `retryWithBackoff` on the default profile invokes the wrapped
operation at most 4 times (maxRetries = 3 after the first attempt); it
returns the operation's value as soon as an invocation succeeds; an
invocation failing with a non-retryable error message propagates that
error immediately with no further invocation; if all invocations fail
with retryable errors the last (4th) error is thrown.  Concretely, an
operation failing with "HTTP 429" twice succeeds on the 3rd attempt, and
one failing every time propagates the 4th error. -/
theorem retry_default_profile_spec {α : Type} (op : ℕ → Except String α) :
    retryCallsTotal op DEFAULT_OPTIONS ≤ 4
    ∧ (∀ i v, i ≤ 3 →
        (∀ j, j < i → ∃ ej, op j = .error ej ∧
          isRetryableError ej DEFAULT_OPTIONS.retryableErrors = true) →
        op i = .ok v →
        retryWithBackoff op DEFAULT_OPTIONS = .ok v ∧
        retryCallsTotal op DEFAULT_OPTIONS = i + 1)
    ∧ (∀ i e, i ≤ 3 →
        (∀ j, j < i → ∃ ej, op j = .error ej ∧
          isRetryableError ej DEFAULT_OPTIONS.retryableErrors = true) →
        op i = .error e → isRetryableError e DEFAULT_OPTIONS.retryableErrors = false →
        retryWithBackoff op DEFAULT_OPTIONS = .error e ∧
        retryCallsTotal op DEFAULT_OPTIONS = i + 1)
    ∧ ((∀ j, j ≤ 3 → ∃ ej, op j = .error ej ∧
          isRetryableError ej DEFAULT_OPTIONS.retryableErrors = true) →
        ∀ e, op 3 = .error e → retryWithBackoff op DEFAULT_OPTIONS = .error e)
    ∧ retryWithBackoff opTwice429 DEFAULT_OPTIONS = .ok ()
    ∧ retryCallsTotal opTwice429 DEFAULT_OPTIONS = 3
    ∧ retryWithBackoff opAlways429 DEFAULT_OPTIONS = .error "HTTP 429 on attempt 4" := by
  refine ⟨retryCalls_le op _ 3 0, ?_, ?_, ?_, ?_, ?_, ?_⟩
  · intro i v hi hprev hok
    obtain ⟨h1, h2⟩ := retryFrom_skip op DEFAULT_OPTIONS.retryableErrors i 0 3 hi
      (fun j hj => by simpa using hprev j hj)
    rw [Nat.zero_add] at h1 h2
    refine ⟨?_, ?_⟩
    · show retryFrom op DEFAULT_OPTIONS.retryableErrors 0 3 = .ok v
      rw [h1]; exact retryFrom_ok hok _
    · show retryCalls op DEFAULT_OPTIONS.retryableErrors 0 3 = i + 1
      rw [h2, retryCalls_ok hok]
  · intro i e hi hprev herr hnr
    obtain ⟨h1, h2⟩ := retryFrom_skip op DEFAULT_OPTIONS.retryableErrors i 0 3 hi
      (fun j hj => by simpa using hprev j hj)
    rw [Nat.zero_add] at h1 h2
    refine ⟨?_, ?_⟩
    · show retryFrom op DEFAULT_OPTIONS.retryableErrors 0 3 = .error e
      rw [h1]; exact retryFrom_nonretryable herr hnr _
    · show retryCalls op DEFAULT_OPTIONS.retryableErrors 0 3 = i + 1
      rw [h2, retryCalls_nonretryable herr hnr]
  · intro hall e herr
    obtain ⟨h1, _⟩ := retryFrom_skip op DEFAULT_OPTIONS.retryableErrors 3 0 3 le_rfl
      (fun j hj => by simpa using hall j (by omega))
    rw [Nat.zero_add] at h1
    show retryFrom op DEFAULT_OPTIONS.retryableErrors 0 3 = .error e
    rw [h1]; exact retryFrom_last herr
  · rfl
  · decide
  · rfl

/-- Witness for C4 at the spec's concrete scenario: two "HTTP 429"
failures, success on the 3rd invocation. -/
theorem retry_default_profile_spec_witness :
    retryWithBackoff opTwice429 DEFAULT_OPTIONS = .ok () ∧
    retryCallsTotal opTwice429 DEFAULT_OPTIONS = 2 + 1 := by
  exact (retry_default_profile_spec opTwice429).2.1 2 () (by omega)
    (fun j hj => ⟨"HTTP 429", by interval_cases j <;> rfl, by decide⟩) rfl

/-! ### Trading service (server/tradingService.ts) -/

/-- The common adapter result shape (`TradeResult` of tradingService.ts).
Numeric fields formatted with `toFixed` in the source are stored as their
rounded rational values. -/
structure TradeResult where
  success : Bool := false
  txHash : Option String := none
  tokenAmount : Option ℚ := none
  gasFee : Option ℚ := none
  gasFeeUsd : Option ℚ := none
  tokenPrice : Option ℚ := none
  slippage : Option ℚ := none
  errorMessage : Option String := none
deriving Repr, DecidableEq

/-- A failure outcome with only `errorMessage` set (the message templates'
interpolated values are elided). -/
def failResult (msg : String) : TradeResult := { success := false, errorMessage := some msg }

/-- `TradeParams` of tradingService.ts. -/
structure TradeParams where
  network : Network
  dex : String
  dexVersion : Option String := none
  tokenAddress : String
  amountUsd : ℚ
  slippageTolerance : ℚ
  maxGasRatio : ℚ
deriving Repr

/-- One character of the base58 alphabet `[1-9A-HJ-NP-Za-km-z]`. -/
def isBase58Char (c : Char) : Bool :=
  (c.isDigit && c != '0') || (c.isUpper && c != 'I' && c != 'O') || (c.isLower && c != 'l')

/-- One character of `[a-fA-F0-9]`. -/
def isHexChar (c : Char) : Bool :=
  c.isDigit || ('a' ≤ c && c ≤ 'f') || ('A' ≤ c && c ≤ 'F')

/-- `TradingService.isValidTokenAddress`: Solana `^[1-9A-HJ-NP-Za-km-z]{32,44}$`,
EVM `^0x[a-fA-F0-9]{40}$`. -/
def isValidTokenAddress (network : Network) (address : String) : Bool :=
  match network with
  | .SOL =>
    32 ≤ address.data.length && address.data.length ≤ 44 && address.data.all isBase58Char
  | _ =>
    match address.data with
    | '0' :: 'x' :: rest => rest.length = 40 && rest.all isHexChar
    | _ => false

/-- The Jupiter quote request built by `JupiterClient.executeSwap`. -/
structure QuoteGetRequest where
  inputMint : String
  outputMint : String
  amount : ℤ
  slippageBps : ℤ
deriving Repr, DecidableEq

/-- Wrapped SOL mint (jupiterClient.ts `NATIVE_SOL_MINT`). -/
def NATIVE_SOL_MINT : String := "So11111111111111111111111111111111111111112"

/-- `LAMPORTS_PER_SOL`. -/
def LAMPORTS_PER_SOL : ℚ := 1000000000

/-- `JupiterSwapParams` (minus the connection handle). -/
structure JupiterSwapParams where
  tokenMint : String
  amountSOL : ℚ
  slippageBps : ℤ
  walletAddress : String
  solPriceUsd : ℚ
deriving Repr

/-- Outcomes of the external calls `JupiterClient.executeSwap` makes:
`quote` is the retried `quoteGet` (`.ok none` models a falsy response,
`.error` a throw); `swapPipeline` covers `swapPost`, deserialization,
signing, `sendRawTransaction` and `confirmTransaction`, yielding the
transaction id; `mintDecimals` is the `getMint` lookup (`none` = lookup
failed, default 9 applies). -/
structure JupiterEnv where
  quote : Except String (Option ℕ)
  swapPipeline : Except String String
  mintDecimals : Option ℕ
deriving Repr

/-- `JupiterClient.executeSwap` (jupiterClient.ts). -/
def jupiterExecuteSwap (env : JupiterEnv) (p : JupiterSwapParams) : TradeResult :=
  match env.quote with
  | .error msg => failResult ("Jupiter swap failed: " ++ msg)
  | .ok none => failResult "Failed to get quote from Jupiter"
  | .ok (some outAmount) =>
    match env.swapPipeline with
    | .error msg => failResult ("Jupiter swap failed: " ++ msg)
    | .ok txid =>
      let tokenDecimals := env.mintDecimals.getD 9
      let tokenAmount := jsToFixed 6 ((outAmount : ℚ) / 10 ^ tokenDecimals)
      let tokenPrice := jsToFixed 6 (p.amountSOL / tokenAmount)
      let gasFee : ℚ := 5 / 10 ^ 6
      let gasFeeUsd := jsToFixed 4 (gasFee * p.solPriceUsd)
      { success := true
        txHash := some txid
        tokenAmount := some tokenAmount
        gasFee := some gasFee
        gasFeeUsd := some gasFeeUsd
        tokenPrice := some tokenPrice
        slippage := some (jsToFixed 2 ((p.slippageBps : ℚ) / 100)) }

/-- The `QuoteGetRequest` issued for given swap params. -/
def jupiterQuoteRequest (p : JupiterSwapParams) : QuoteGetRequest :=
  { inputMint := NATIVE_SOL_MINT
    outputMint := p.tokenMint
    amount := jsFloor (p.amountSOL * LAMPORTS_PER_SOL)
    slippageBps := p.slippageBps }

/-- Record of a DEX adapter invocation made by the trading service. -/
inductive AdapterCall where
  | v2
  | v3
  | pancake
  | jupiter (amountSOL : ℚ) (slippageBps : ℤ)
deriving Repr, DecidableEq

/-- External world of `TradingService`: environment variables, oracle,
gas price fetch and the results the three EVM adapters would produce if
invoked (their internals are modelled separately). -/
structure TradingEnv where
  web3Present : Network → Bool
  solanaConn : Bool
  privateKey : Network → Option String
  price : Network → ℚ
  gasPrice : Network → Except Unit ℚ
  v2Result : TradeResult
  v3Result : TradeResult
  pancakeResult : TradeResult
  jup : JupiterEnv
  solKeyDecodeOk : Bool
  solWalletAddress : String

/-- Result of `TradingService.estimateGas`. -/
structure GasEstimate where
  gasFeeUsd : ℚ
  gasRatio : ℚ
deriving Repr, DecidableEq

/-- `TradingService.estimateGas`: SOL is a flat `$0.01`; a missing web3
instance or a throwing `getGasPrice` yields `{0, 0}`; otherwise
`gasPrice × 200000` wei, converted to USD via the oracle. -/
def estimateGas (env : TradingEnv) (network : Network) (amountUsd : ℚ) : GasEstimate :=
  if network = .SOL then { gasFeeUsd := 1 / 100, gasRatio := 1 / 100 / amountUsd }
  else if env.web3Present network = false then { gasFeeUsd := 0, gasRatio := 0 }
  else
    match env.gasPrice network with
    | .error _ => { gasFeeUsd := 0, gasRatio := 0 }
    | .ok gp =>
      let gasFeeNative := gp * 200000 / 10 ^ 18
      let gasFeeUsd := gasFeeNative * env.price network
      { gasFeeUsd := gasFeeUsd, gasRatio := gasFeeUsd / amountUsd }

/-- The V3 failure test of the auto-fallback:
`v3Result.errorMessage?.includes('No Uniswap V3 liquidity pool found')`. -/
def v3NoPoolMatch (r : TradeResult) : Bool :=
  match r.errorMessage with
  | some m => strIncludes m "No Uniswap V3 liquidity pool found"
  | none => false

/-- The network/version dispatch of `executeEVMTrade` (the code after the
gas pre-check). -/
def dispatchEVM (env : TradingEnv) (p : TradeParams) : TradeResult × List AdapterCall :=
  if p.network = .BNB then (env.pancakeResult, [.pancake])
  else if p.network = .BASE ∨ p.network = .ETH then
    if p.dexVersion = some "v4" then
      (failResult "Uniswap V4 integration is under development. Please select V2, V3, or auto-detect mode.", [])
    else if p.dexVersion = some "v2" then (env.v2Result, [.v2])
    else
      let v3r := env.v3Result
      if v3r.success = true ∨ p.dexVersion = some "v3" then (v3r, [.v3])
      else if (p.dexVersion = none ∨ p.dexVersion = some "auto") ∧
          v3NoPoolMatch v3r = true then
        (env.v2Result, [.v3, .v2])
      else (v3r, [.v3])
  else (env.pancakeResult, [.pancake])

/-- `TradingService.executeEVMTrade`, returning the outcome together with
the list of adapter invocations it performed. -/
def executeEVMTrade (env : TradingEnv) (p : TradeParams) : TradeResult × List AdapterCall :=
  if env.web3Present p.network = false then
    (failResult "Web3 instance not found", [])
  else
    match env.privateKey p.network with
    | none => (failResult "Private key not configured", [])
    | some _ =>
      let nativeTokenPriceUsd := env.price p.network
      let g := estimateGas env p.network p.amountUsd
      if g.gasRatio > p.maxGasRatio then
        ({ success := false
           errorMessage := some "Gas fee exceeds configured share of trade value"
           gasFee := some (jsToFixed 6 (g.gasFeeUsd / nativeTokenPriceUsd))
           gasFeeUsd := some (jsToFixed 2 g.gasFeeUsd) }, [])
      else dispatchEVM env p

/-- The `JupiterSwapParams` `executeSolanaTrade` hands to the Jupiter
adapter: `amountSOL = amountUsd / solPriceUsd` and
`slippageBps = Math.floor(slippageTolerance * 100)`. -/
def solanaJupiterParams (env : TradingEnv) (p : TradeParams) : JupiterSwapParams :=
  { tokenMint := p.tokenAddress
    amountSOL := p.amountUsd / env.price .SOL
    slippageBps := jsFloor (p.slippageTolerance * 100)
    walletAddress := env.solWalletAddress
    solPriceUsd := env.price .SOL }

/-- `TradingService.executeSolanaTrade`. -/
def executeSolanaTrade (env : TradingEnv) (p : TradeParams) : TradeResult × List AdapterCall :=
  if env.solanaConn = false then (failResult "Solana connection not configured", [])
  else
    match env.privateKey .SOL with
    | none => (failResult "Solana private key not configured", [])
    | some _ =>
      if env.solKeyDecodeOk = false then (failResult "Solana trade failed", [])
      else
        let jp := solanaJupiterParams env p
        (jupiterExecuteSwap env.jup jp, [.jupiter jp.amountSOL jp.slippageBps])

/-- `TradingService.isNetworkAvailable`. -/
def isNetworkAvailable (env : TradingEnv) (network : Network) : Bool :=
  match network with
  | .SOL => (env.privateKey .SOL).isSome && env.solanaConn
  | n => (env.privateKey n).isSome && env.web3Present n

/-- `TradingService.executeTrade`: availability check, address validation,
then dispatch per network. -/
def executeTrade (env : TradingEnv) (p : TradeParams) : TradeResult × List AdapterCall :=
  if isNetworkAvailable env p.network = false then
    (failResult "Network not configured", [])
  else if isValidTokenAddress p.network p.tokenAddress = false then
    (failResult "Invalid token address format", [])
  else if p.network = .SOL then executeSolanaTrade env p
  else executeEVMTrade env p

/-- On a non-SOL network that is available with a configured key and a
valid address, `executeTrade` reaches `executeEVMTrade`. -/
theorem executeTrade_evm (env : TradingEnv) (p : TradeParams)
    (hn : p.network ≠ .SOL)
    (hw : env.web3Present p.network = true)
    (hk : (env.privateKey p.network).isSome = true)
    (ha : isValidTokenAddress p.network p.tokenAddress = true) :
    executeTrade env p = executeEVMTrade env p := by
  have havail : isNetworkAvailable env p.network = true := by
    cases hc : p.network
    case SOL => exact absurd hc hn
    all_goals (rw [hc] at hk hw; simp [isNetworkAvailable, hk, hw])
  unfold executeTrade
  rw [havail, ha]
  simp [hn]

/-- Past the gas gate, `executeEVMTrade` is the version dispatch. -/
theorem executeEVMTrade_dispatch (env : TradingEnv) (p : TradeParams)
    (hw : env.web3Present p.network = true)
    (hk : (env.privateKey p.network).isSome = true)
    (hg : ¬ (estimateGas env p.network p.amountUsd).gasRatio > p.maxGasRatio) :
    executeEVMTrade env p = dispatchEVM env p := by
  obtain ⟨k, hkey⟩ := Option.isSome_iff_exists.mp hk
  unfold executeEVMTrade
  rw [hw, hkey]
  simp [hg]

/-- C1: on an EVM network (ETH, BASE or BNB) with the network configured,
a valid token address and an estimated gas ratio above `maxGasRatio`,
`executeTrade` fails with the computed `gasFee`/`gasFeeUsd` populated, no
`txHash` and no adapter invocation; and for Solana the outcome is
independent of `maxGasRatio` (the pre-check is skipped). -/
theorem gas_precheck_spec :
    (∀ (env : TradingEnv) (p : TradeParams), p.network ≠ .SOL →
      env.web3Present p.network = true →
      (env.privateKey p.network).isSome = true →
      isValidTokenAddress p.network p.tokenAddress = true →
      (estimateGas env p.network p.amountUsd).gasRatio > p.maxGasRatio →
      (executeTrade env p).1.success = false ∧
      (executeTrade env p).1.gasFee =
        some (jsToFixed 6 ((estimateGas env p.network p.amountUsd).gasFeeUsd / env.price p.network)) ∧
      (executeTrade env p).1.gasFeeUsd =
        some (jsToFixed 2 (estimateGas env p.network p.amountUsd).gasFeeUsd) ∧
      (executeTrade env p).1.txHash = none ∧
      (executeTrade env p).2 = []) ∧
    (∀ (env : TradingEnv) (p : TradeParams) (x y : ℚ), p.network = .SOL →
      executeTrade env { p with maxGasRatio := x } =
        executeTrade env { p with maxGasRatio := y }) := by
  constructor
  · intro env p hn hw hk ha hg
    obtain ⟨k, hkey⟩ := Option.isSome_iff_exists.mp hk
    have h1 := executeTrade_evm env p hn hw hk ha
    have h2 : executeEVMTrade env p =
        ({ success := false
           errorMessage := some "Gas fee exceeds configured share of trade value"
           gasFee := some (jsToFixed 6
             ((estimateGas env p.network p.amountUsd).gasFeeUsd / env.price p.network))
           gasFeeUsd := some (jsToFixed 2 (estimateGas env p.network p.amountUsd).gasFeeUsd) },
         []) := by
      unfold executeEVMTrade
      rw [hw, hkey]
      simp [hg]
    rw [h1, h2]
    simp
  · intro env p x y hsol
    have hx : executeTrade env { p with maxGasRatio := x } = executeTrade env p := by
      cases p with
      | mk network dex dexVersion tokenAddress amountUsd slippageTolerance maxGasRatio =>
        cases hsol
        rfl
    have hy : executeTrade env { p with maxGasRatio := y } = executeTrade env p := by
      cases p with
      | mk network dex dexVersion tokenAddress amountUsd slippageTolerance maxGasRatio =>
        cases hsol
        rfl
    rw [hx, hy]

/-- C2: version strategy on ETH/BASE past the safety checks: `v4` is a
NotImplemented failure with no adapter call; `v2` calls only the V2
adapter; `v3` calls only the V3 adapter and returns its result; `auto`
or absent version calls V3 and retries once on V2 exactly when V3 failed
with the no-V3-pool error, otherwise returns V3's result. -/
theorem uniswap_version_strategy_spec (env : TradingEnv) (p : TradeParams)
    (hnet : p.network = .ETH ∨ p.network = .BASE)
    (hw : env.web3Present p.network = true)
    (hk : (env.privateKey p.network).isSome = true)
    (ha : isValidTokenAddress p.network p.tokenAddress = true)
    (hg : ¬ (estimateGas env p.network p.amountUsd).gasRatio > p.maxGasRatio) :
    (p.dexVersion = some "v4" →
      executeTrade env p =
        (failResult "Uniswap V4 integration is under development. Please select V2, V3, or auto-detect mode.", [])) ∧
    (p.dexVersion = some "v2" → executeTrade env p = (env.v2Result, [.v2])) ∧
    (p.dexVersion = some "v3" → executeTrade env p = (env.v3Result, [.v3])) ∧
    ((p.dexVersion = none ∨ p.dexVersion = some "auto") →
      (env.v3Result.success = false → v3NoPoolMatch env.v3Result = true →
        executeTrade env p = (env.v2Result, [.v3, .v2])) ∧
      (env.v3Result.success = true ∨ v3NoPoolMatch env.v3Result = false →
        executeTrade env p = (env.v3Result, [.v3]))) := by
  have hn : p.network ≠ .SOL := by rcases hnet with h | h <;> simp [h]
  have hbnb : ¬ p.network = .BNB := by rcases hnet with h | h <;> simp [h]
  have h1 : executeTrade env p = dispatchEVM env p :=
    (executeTrade_evm env p hn hw hk ha).trans (executeEVMTrade_dispatch env p hw hk hg)
  rw [h1]
  unfold dispatchEVM
  rw [if_neg hbnb, if_pos hnet.symm]
  refine ⟨?_, ?_, ?_, ?_⟩
  · intro hv; simp [hv]
  · intro hv; simp [hv]
  · intro hv
    simp [hv]
  · intro hv
    have hv4 : ¬ p.dexVersion = some "v4" := by rcases hv with h | h <;> simp [h]
    have hv2 : ¬ p.dexVersion = some "v2" := by rcases hv with h | h <;> simp [h]
    have hv3 : ¬ p.dexVersion = some "v3" := by rcases hv with h | h <;> simp [h]
    rw [if_neg hv4, if_neg hv2]
    constructor
    · intro hfail hmatch
      rw [if_neg (by simp [hfail, hv3]), if_pos ⟨hv, hmatch⟩]
    · intro hcase
      rcases hcase with hsucc | hnomatch
      · rw [if_pos (Or.inl hsucc)]
      · by_cases hsucc : env.v3Result.success = true
        · rw [if_pos (Or.inl hsucc)]
        · rw [if_neg (by simp [hsucc, hv3]), if_neg (by simp [hnomatch])]

/-- C10: when `getGasPrice` throws inside `estimateGas`, the estimate is
`{gasFeeUsd = 0, gasRatio = 0}`, the pre-check cannot trigger (for the
schema-valid `maxGasRatio ≥ 0`) and `executeTrade` proceeds to the DEX
dispatch, invoking an adapter whenever the version is not `v4`. -/
theorem estimateGas_failure_bypasses_gate (env : TradingEnv) (p : TradeParams)
    (hn : p.network ≠ .SOL)
    (hw : env.web3Present p.network = true)
    (hk : (env.privateKey p.network).isSome = true)
    (ha : isValidTokenAddress p.network p.tokenAddress = true)
    (hgp : env.gasPrice p.network = .error ())
    (hmgr : 0 ≤ p.maxGasRatio) :
    estimateGas env p.network p.amountUsd = { gasFeeUsd := 0, gasRatio := 0 } ∧
    executeTrade env p = dispatchEVM env p ∧
    (p.dexVersion ≠ some "v4" → (executeTrade env p).2 ≠ []) := by
  have hest : estimateGas env p.network p.amountUsd = { gasFeeUsd := 0, gasRatio := 0 } := by
    unfold estimateGas
    rw [if_neg hn, hw, hgp]
    simp
  have hgate : ¬ (estimateGas env p.network p.amountUsd).gasRatio > p.maxGasRatio := by
    rw [hest]
    exact not_lt.mpr hmgr
  have hmain : executeTrade env p = dispatchEVM env p :=
    (executeTrade_evm env p hn hw hk ha).trans (executeEVMTrade_dispatch env p hw hk hgate)
  refine ⟨hest, hmain, ?_⟩
  intro hv4
  rw [hmain]
  unfold dispatchEVM
  dsimp only
  split_ifs <;> simp_all

/-- A fully configured environment used as concrete input for witnesses:
100 gwei gas price, ETH at $2000, V3 failing with the no-pool error. -/
def envEvmW : TradingEnv :=
  { web3Present := fun _ => true
    solanaConn := true
    privateKey := fun _ => some "pk"
    price := fun _ => 2000
    gasPrice := fun _ => .ok (10 ^ 11)
    v2Result := { success := true, txHash := some "0xv2" }
    v3Result := failResult
      "No Uniswap V3 liquidity pool found for this token on BASE. Tried fee tiers: 0.01%, 0.05%, 0.3%, 1%."
    pancakeResult := { success := true, txHash := some "0xpancake" }
    jup := { quote := .ok (some 1000000), swapPipeline := .ok "jupTx", mintDecimals := some 6 }
    solKeyDecodeOk := true
    solWalletAddress := "W" }

/-- Spec §8 scenario 2: $5 EVM trade, `maxGasRatio = 0.5`, gas estimate $40. -/
def pGasW : TradeParams :=
  { network := .ETH
    dex := "Uniswap"
    dexVersion := none
    tokenAddress := "0xaaaaaaaaaaaaaaaaaaaaaaaaaaaaaaaaaaaaaaaa"
    amountUsd := 5
    slippageTolerance := 1
    maxGasRatio := 1 / 2 }

/-- Spec §8 scenario 3: auto mode on BASE, V3 probes found no pool. -/
def pAutoW : TradeParams :=
  { network := .BASE
    dex := "Uniswap"
    dexVersion := some "auto"
    tokenAddress := "0xbbbbbbbbbbbbbbbbbbbbbbbbbbbbbbbbbbbbbbbb"
    amountUsd := 100
    slippageTolerance := 1
    maxGasRatio := 1 }

/-- Witness for C1 at scenario 2: the $5 trade is rejected by the gas gate
with the fee figures populated and no adapter call. -/
theorem gas_precheck_spec_witness :
    (executeTrade envEvmW pGasW).1.success = false ∧
    (executeTrade envEvmW pGasW).1.gasFee =
      some (jsToFixed 6 ((estimateGas envEvmW pGasW.network pGasW.amountUsd).gasFeeUsd /
        envEvmW.price pGasW.network)) ∧
    (executeTrade envEvmW pGasW).1.gasFeeUsd =
      some (jsToFixed 2 (estimateGas envEvmW pGasW.network pGasW.amountUsd).gasFeeUsd) ∧
    (executeTrade envEvmW pGasW).1.txHash = none ∧
    (executeTrade envEvmW pGasW).2 = [] := by
  have hest : estimateGas envEvmW pGasW.network pGasW.amountUsd =
      { gasFeeUsd := 40, gasRatio := 8 } := by
    unfold estimateGas
    rw [if_neg (by decide), if_neg (by decide)]
    norm_num [envEvmW, pGasW]
  exact gas_precheck_spec.1 envEvmW pGasW (by decide) rfl rfl (by decide)
    (by rw [hest]; norm_num [pGasW])

/-- Witness for C2 at scenario 3: auto mode with the no-pool V3 failure
falls back to V2. -/
theorem uniswap_version_strategy_spec_witness :
    executeTrade envEvmW pAutoW = (envEvmW.v2Result, [.v3, .v2]) := by
  have hest : estimateGas envEvmW pAutoW.network pAutoW.amountUsd =
      { gasFeeUsd := 40, gasRatio := 2 / 5 } := by
    unfold estimateGas
    rw [if_neg (by decide), if_neg (by decide)]
    norm_num [envEvmW, pAutoW]
  exact ((uniswap_version_strategy_spec envEvmW pAutoW (Or.inr rfl) rfl rfl
    (by decide) (by rw [hest]; norm_num [pAutoW])).2.2.2 (Or.inr rfl)).1 rfl (by decide)

/-- `envEvmW` with `getGasPrice` throwing. -/
def envGasFailW : TradingEnv := { envEvmW with gasPrice := fun _ => .error () }

/-- Witness for C10: with the gas price fetch failing, the $5 trade with
`maxGasRatio = 0.5` sails past the gate and invokes an adapter. -/
theorem estimateGas_failure_bypasses_gate_witness :
    estimateGas envGasFailW pGasW.network pGasW.amountUsd = { gasFeeUsd := 0, gasRatio := 0 } ∧
    executeTrade envGasFailW pGasW = dispatchEVM envGasFailW pGasW ∧
    (pGasW.dexVersion ≠ some "v4" → (executeTrade envGasFailW pGasW).2 ≠ []) :=
  estimateGas_failure_bypasses_gate envGasFailW pGasW (by decide) rfl rfl
    (by decide) rfl (by norm_num [pGasW])

/-- C9 (amended): the Solana path converts the percent slippage to basis
points with `Math.floor(slippage × 100)` — both in the adapter call and in
the Jupiter quote request — and a successful Jupiter swap reports the
constant `gasFee = 0.000005` SOL with `gasFeeUsd` equal to that constant
times the SOL price, rounded to 4 decimal places by `toFixed(4)`. -/
theorem jupiter_slippage_and_fee_spec (env : TradingEnv) (p : TradeParams)
    (hsol : p.network = .SOL)
    (hconn : env.solanaConn = true)
    (hk : (env.privateKey .SOL).isSome = true)
    (hdec : env.solKeyDecodeOk = true)
    (haddr : isValidTokenAddress .SOL p.tokenAddress = true) :
    (executeTrade env p).2 =
      [.jupiter (p.amountUsd / env.price .SOL) (jsFloor (p.slippageTolerance * 100))] ∧
    (jupiterQuoteRequest (solanaJupiterParams env p)).slippageBps =
      jsFloor (p.slippageTolerance * 100) ∧
    (∀ out txid, env.jup.quote = .ok (some out) → env.jup.swapPipeline = .ok txid →
      (executeTrade env p).1.success = true ∧
      (executeTrade env p).1.gasFee = some (5 / 10 ^ 6) ∧
      (executeTrade env p).1.gasFeeUsd = some (jsToFixed 4 (5 / 10 ^ 6 * env.price .SOL))) := by
  obtain ⟨k, hkey⟩ := Option.isSome_iff_exists.mp hk
  have havail : isNetworkAvailable env p.network = true := by
    rw [hsol]
    simp [isNetworkAvailable, hk, hconn]
  have haddr' : isValidTokenAddress p.network p.tokenAddress = true := by
    rw [hsol]; exact haddr
  have h1 : executeTrade env p = executeSolanaTrade env p := by
    unfold executeTrade
    rw [havail, haddr']
    simp [hsol]
  have h2 : executeSolanaTrade env p =
      (jupiterExecuteSwap env.jup (solanaJupiterParams env p),
       [.jupiter (p.amountUsd / env.price .SOL) (jsFloor (p.slippageTolerance * 100))]) := by
    unfold executeSolanaTrade
    rw [hconn, hkey, hdec]
    simp
    exact ⟨rfl, rfl⟩
  rw [h1, h2]
  refine ⟨rfl, rfl, ?_⟩
  intro out txid hq hs
  unfold jupiterExecuteSwap
  rw [hq, hs]
  exact ⟨rfl, rfl, rfl⟩

/-- Environment for the C9 counterexample: SOL at $150, Jupiter quote and
swap pipeline succeeding. -/
def envC9 : TradingEnv := { envEvmW with price := fun _ => 150 }

/-- A $10 Solana trade with `slippageTolerance = 0.505` percent. -/
def pC9 : TradeParams :=
  { network := .SOL
    dex := "Jupiter"
    dexVersion := none
    tokenAddress := "EPjFWdd5AufqSSqeM2qN1xzybapC8G4wEGGkZwyTDt1v"
    amountUsd := 10
    slippageTolerance := 101 / 200
    maxGasRatio := 4 / 5 }

/-- Counterexample to C9 as stated: at `slippageTolerance = 0.505` the
Jupiter adapter is invoked with `slippageBps = 50` although
`round(0.505 × 100) = 51`, and the successful swap's `gasFeeUsd` is
`0.0008` (the `toFixed(4)` rounding) although `0.000005 × 150 = 0.00075`. -/
theorem jupiter_slippage_counterexample :
    (executeTrade envC9 pC9).2 = [.jupiter (1 / 15) 50] ∧
    jsRound (pC9.slippageTolerance * 100) = 51 ∧
    (50 : ℤ) ≠ jsRound (pC9.slippageTolerance * 100) ∧
    (executeTrade envC9 pC9).1.success = true ∧
    (executeTrade envC9 pC9).1.gasFeeUsd = some (1 / 1250) ∧
    (5 / 10 ^ 6 * envC9.price .SOL : ℚ) = 3 / 4000 ∧
    ((1 / 1250 : ℚ) ≠ 3 / 4000) := by
  have hmain := jupiter_slippage_and_fee_spec envC9 pC9 rfl rfl rfl rfl (by decide)
  have hfloor : jsFloor (pC9.slippageTolerance * 100) = 50 := by
    show jsFloor ((101 / 200 : ℚ) * 100) = 50
    unfold jsFloor
    norm_num
  have hround : jsRound (pC9.slippageTolerance * 100) = 51 := by
    show jsRound ((101 / 200 : ℚ) * 100) = 51
    unfold jsRound
    norm_num
  have hamount : (pC9.amountUsd / envC9.price .SOL : ℚ) = 1 / 15 := by
    show ((10 : ℚ) / 150) = 1 / 15
    norm_num
  have hsucc := hmain.2.2 1000000 "jupTx" rfl rfl
  have hfee : jsToFixed 4 (5 / 10 ^ 6 * envC9.price .SOL) = 1 / 1250 := by
    show jsToFixed 4 ((5 : ℚ) / 10 ^ 6 * 150) = 1 / 1250
    unfold jsToFixed
    norm_num
  refine ⟨?_, hround, by rw [hround]; decide, hsucc.1, ?_, by show (5 / 10 ^ 6 * 150 : ℚ) = 3 / 4000; norm_num, by norm_num⟩
  · rw [hmain.1, hamount, hfloor]
  · rw [hsucc.2.2, hfee]

/-- Witness for the amended C9 at the counterexample input. -/
theorem jupiter_slippage_and_fee_spec_witness :
    (executeTrade envC9 pC9).2 =
      [.jupiter (pC9.amountUsd / envC9.price .SOL) (jsFloor (pC9.slippageTolerance * 100))] ∧
    (executeTrade envC9 pC9).1.gasFee = some (5 / 10 ^ 6) := by
  have h := jupiter_slippage_and_fee_spec envC9 pC9 rfl rfl rfl rfl (by decide)
  exact ⟨h.1, (h.2.2 1000000 "jupTx" rfl rfl).2.1⟩

/-! ### Uniswap V3 client (server/dex/uniswapV3Client.ts) -/

namespace UniswapV3

/-- `ROUTER_ADDRESSES` (SwapRouter02): only BASE is configured. -/
def ROUTER_ADDRESSES : Network → Option String
  | .BASE => some "0x2626664c2603336E57B271c5C0b26F421741e481"
  | _ => none

/-- `QUOTER_ADDRESSES` (QuoterV2). -/
def QUOTER_ADDRESSES : Network → Option String
  | .BASE => some "0x3d4e44Eb1374240CE5F1B871ab261CD16335B76a"
  | _ => none

/-- `WETH_ADDRESSES`. -/
def WETH_ADDRESSES : Network → Option String
  | .BASE => some "0x4200000000000000000000000000000000000006"
  | _ => none

/-- `FEE_TIERS` probed in this order. -/
def FEE_TIERS : List ℕ := [100, 500, 3000, 10000]

/-- One iteration of the fee-tier loop of `executeSwap`: `probe fee` is
what `quoteExactInputSingle` returns for that tier (`none` models a
throw), the accumulator is `(bestQuote.amountOut, bestFee)`.  A probe is
taken only if its `amountOut` is nonzero and strictly larger than the
current best. -/
def feeStep (probe : ℕ → Option ℕ) (acc : Option (ℕ × ℕ)) (fee : ℕ) : Option (ℕ × ℕ) :=
  match probe fee with
  | none => acc
  | some amountOut =>
    if amountOut ≠ 0 then
      match acc with
      | none => some (amountOut, fee)
      | some (bestOut, bestFee) =>
        if bestOut < amountOut then some (amountOut, fee) else some (bestOut, bestFee)
    else acc

/-- The `for (const fee of FEE_TIERS)` loop. -/
def selectFeeTierAux (probe : ℕ → Option ℕ) : List ℕ → Option (ℕ × ℕ) → Option (ℕ × ℕ)
  | [], acc => acc
  | fee :: rest, acc => selectFeeTierAux probe rest (feeStep probe acc fee)

/-- The winning `(amountOut, fee)` over all four tiers. -/
def selectFeeTier (probe : ℕ → Option ℕ) : Option (ℕ × ℕ) :=
  selectFeeTierAux probe FEE_TIERS none

/-- Post-quote pipeline data (gas estimate, gas price, receipt hash). -/
structure V3Post where
  gasEstimate : ℚ
  gasPrice : ℚ
  txHash : String
deriving Repr

/-- External calls of `UniswapV3Client.executeSwap`: the retried
`decimals()` (throw = invalid token), the per-tier quoter probes, and the
gas-estimate/sign/send pipeline after a pool is found. -/
structure V3Env where
  decimals : Except Unit ℕ
  probe : ℕ → Option ℕ
  post : Except String V3Post

/-- `UniswapV3SwapParams` (minus the web3 handle). -/
structure V3Params where
  network : Network
  tokenAddress : String
  amountETH : ℚ
  slippageTolerance : ℚ
  walletAddress : String
  nativeTokenPriceUsd : ℚ

/-- `UniswapV3Client.executeSwap`, returning the outcome together with
the fee tier used for the `exactInputSingle` swap (if one was built). -/
def v3ExecuteSwap (env : V3Env) (p : V3Params) : TradeResult × Option ℕ :=
  match ROUTER_ADDRESSES p.network, QUOTER_ADDRESSES p.network, WETH_ADDRESSES p.network with
  | some _routerAddress, some _quoterAddress, some _wethAddress =>
    match env.decimals with
    | .error _ =>
      (failResult "Invalid token address. The token contract does not exist or is not a valid ERC20 token.",
       none)
    | .ok decimals =>
      match selectFeeTier env.probe with
      | none =>
        (failResult "No Uniswap V3 liquidity pool found for this token. Tried fee tiers: 0.01%, 0.05%, 0.3%, 1%.",
         none)
      | some (expectedTokenAmount, bestFee) =>
        if expectedTokenAmount = 0 then
          (failResult "Unable to get swap quote. The token may have insufficient liquidity.", none)
        else
          let slippageMultiplier : ℚ := 1 - p.slippageTolerance / 100
          let _minAmountOut : ℤ :=
            (expectedTokenAmount : ℤ) * jsFloor (slippageMultiplier * 1000) / 1000
          match env.post with
          | .error msg => (failResult ("Uniswap V3 swap failed: " ++ msg), some bestFee)
          | .ok post =>
            let gasFeeETH := post.gasEstimate * post.gasPrice / 10 ^ 18
            let gasFeeUsd := jsToFixed 2 (gasFeeETH * p.nativeTokenPriceUsd)
            let tokenAmount := jsToFixed 6 ((expectedTokenAmount : ℚ) / 10 ^ decimals)
            let tokenPrice := jsToFixed 6 (p.amountETH / tokenAmount)
            ({ success := true
               txHash := some post.txHash
               tokenAmount := some tokenAmount
               gasFee := some gasFeeETH
               gasFeeUsd := some gasFeeUsd
               tokenPrice := some tokenPrice
               slippage := some (jsToFixed 2 p.slippageTolerance) }, some bestFee)
  | _, _, _ => (failResult "Uniswap V3 not configured for network", none)

theorem feeStep_none_iff (probe : ℕ → Option ℕ) (acc : Option (ℕ × ℕ)) (fee : ℕ) :
    feeStep probe acc fee = none ↔ acc = none ∧ (probe fee = none ∨ probe fee = some 0) := by
  unfold feeStep
  rcases h : probe fee with _ | b
  · simp
  · rcases acc with _ | ⟨bo, bf⟩
    · by_cases hb : b = 0 <;> simp [hb]
    · by_cases hb : b = 0
      · simp [hb]
      · simp only [hb]
        split_ifs <;> simp [hb]

theorem feeStep_none_cases (probe : ℕ → Option ℕ) (f : ℕ) :
    feeStep probe none f = none ∨
    ∃ b, probe f = some b ∧ b ≠ 0 ∧ feeStep probe none f = some (b, f) := by
  unfold feeStep
  rcases h : probe f with _ | b
  · left; rfl
  · by_cases hb : b = 0
    · left; simp [hb]
    · right; exact ⟨b, rfl, hb, by simp [hb]⟩

theorem feeStep_some_cases (probe : ℕ → Option ℕ) (aout afee f : ℕ) :
    feeStep probe (some (aout, afee)) f = some (aout, afee) ∨
    (∃ b, probe f = some b ∧ b ≠ 0 ∧ aout < b ∧
      feeStep probe (some (aout, afee)) f = some (b, f)) := by
  unfold feeStep
  rcases h : probe f with _ | b
  · left; rfl
  · by_cases hb : b = 0
    · left; simp [hb]
    · by_cases hl : aout < b
      · right; exact ⟨b, rfl, hb, hl, by simp [hb, hl]⟩
      · left; simp [hb, hl]

theorem selAux_none (probe : ℕ → Option ℕ) :
    ∀ (l : List ℕ) (acc : Option (ℕ × ℕ)),
      selectFeeTierAux probe l acc = none ↔
      acc = none ∧ ∀ f ∈ l, probe f = none ∨ probe f = some 0 := by
  intro l
  induction l with
  | nil => intro acc; simp [selectFeeTierAux]
  | cons f rest ih =>
    intro acc
    rw [selectFeeTierAux, ih (feeStep probe acc f), feeStep_none_iff]
    simp only [List.mem_cons, forall_eq_or_imp]
    tauto

theorem selAux_acc_grows (probe : ℕ → Option ℕ) :
    ∀ (l : List ℕ) (aout afee : ℕ),
      ∃ out fee, selectFeeTierAux probe l (some (aout, afee)) = some (out, fee) ∧ aout ≤ out := by
  intro l
  induction l with
  | nil => intro aout afee; exact ⟨aout, afee, rfl, le_rfl⟩
  | cons f rest ih =>
    intro aout afee
    rcases feeStep_some_cases probe aout afee f with hs | ⟨b, _, _, hlt, hs⟩
    · obtain ⟨out, fee, hsel, hle⟩ := ih aout afee
      exact ⟨out, fee, by rw [selectFeeTierAux, hs]; exact hsel, hle⟩
    · obtain ⟨out, fee, hsel, hle⟩ := ih b f
      exact ⟨out, fee, by rw [selectFeeTierAux, hs]; exact hsel, by omega⟩

theorem selAux_keep (probe : ℕ → Option ℕ) :
    ∀ (l : List ℕ) (aout afee fee : ℕ),
      selectFeeTierAux probe l (some (aout, afee)) = some (aout, fee) → fee = afee := by
  intro l
  induction l with
  | nil =>
    intro aout afee fee h
    simp [selectFeeTierAux] at h
    omega
  | cons f rest ih =>
    intro aout afee fee h
    rw [selectFeeTierAux] at h
    rcases feeStep_some_cases probe aout afee f with hs | ⟨b, _, _, hlt, hs⟩
    · rw [hs] at h; exact ih aout afee fee h
    · rw [hs] at h
      obtain ⟨out2, fee2, hsel, hle⟩ := selAux_acc_grows probe rest b f
      rw [h] at hsel
      injection hsel with hpair
      injection hpair with h1 h2
      omega

theorem selAux_max (probe : ℕ → Option ℕ) :
    ∀ (l : List ℕ) (acc : Option (ℕ × ℕ)) (out fee : ℕ),
      selectFeeTierAux probe l acc = some (out, fee) →
      ∀ g ∈ l, ∀ b, probe g = some b → b ≤ out := by
  intro l
  induction l with
  | nil => intro acc out fee _ g hg; simp at hg
  | cons f rest ih =>
    intro acc out fee h g hg b hpb
    rw [selectFeeTierAux] at h
    rcases List.mem_cons.mp hg with rfl | hgr
    · by_cases hb : b = 0
      · omega
      · have hstep : ∃ o2 f2, feeStep probe acc g = some (o2, f2) ∧ b ≤ o2 := by
          unfold feeStep
          rw [hpb]
          rcases acc with _ | ⟨bo, bf⟩
          · exact ⟨b, g, by simp [hb], le_rfl⟩
          · by_cases hl : bo < b
            · exact ⟨b, g, by simp [hb, hl], le_rfl⟩
            · exact ⟨bo, bf, by simp [hb, hl], by omega⟩
        obtain ⟨o2, f2, hs, hle⟩ := hstep
        rw [hs] at h
        obtain ⟨out2, fee2, hsel, hle2⟩ := selAux_acc_grows probe rest o2 f2
        rw [h] at hsel
        injection hsel with hpair
        injection hpair with h1 h2
        omega
    · exact ih (feeStep probe acc f) out fee h g hgr b hpb

theorem selAux_mem (probe : ℕ → Option ℕ) :
    ∀ (l : List ℕ) (acc : Option (ℕ × ℕ)) (out fee : ℕ),
      selectFeeTierAux probe l acc = some (out, fee) →
      acc = some (out, fee) ∨ (fee ∈ l ∧ probe fee = some out ∧ out ≠ 0) := by
  intro l
  induction l with
  | nil => intro acc out fee h; left; simpa [selectFeeTierAux] using h
  | cons f rest ih =>
    intro acc out fee h
    rw [selectFeeTierAux] at h
    rcases ih (feeStep probe acc f) out fee h with hacc' | ⟨hm, hp, hz⟩
    · rcases acc with _ | ⟨bo, bf⟩
      · rcases feeStep_none_cases probe f with h0 | ⟨b, hp, hb, hs⟩
        · rw [h0] at hacc'; exact absurd hacc' (by simp)
        · rw [hs] at hacc'
          injection hacc' with hpair
          injection hpair with h1 h2
          subst h1; subst h2
          exact Or.inr ⟨List.mem_cons_self f rest, hp, hb⟩
      · rcases feeStep_some_cases probe bo bf f with hs | ⟨b, hp, hb, hlt, hs⟩
        · rw [hs] at hacc'; exact Or.inl hacc'
        · rw [hs] at hacc'
          injection hacc' with hpair
          injection hpair with h1 h2
          subst h1; subst h2
          exact Or.inr ⟨List.mem_cons_self f rest, hp, hb⟩
    · exact Or.inr ⟨List.mem_cons_of_mem f hm, hp, hz⟩

theorem selAux_nonzero (probe : ℕ → Option ℕ) (l : List ℕ) (acc : Option (ℕ × ℕ))
    (out fee : ℕ) (hacc : ∀ aout afee, acc = some (aout, afee) → aout ≠ 0)
    (h : selectFeeTierAux probe l acc = some (out, fee)) : out ≠ 0 := by
  rcases selAux_mem probe l acc out fee h with ha | ⟨_, _, hz⟩
  · exact hacc out fee ha
  · exact hz

theorem selAux_tie (probe : ℕ → Option ℕ) :
    ∀ (l : List ℕ) (acc : Option (ℕ × ℕ)) (out fee : ℕ),
      List.Pairwise (· < ·) l →
      (∀ aout afee, acc = some (aout, afee) → aout ≠ 0 ∧ ∀ g ∈ l, afee < g) →
      selectFeeTierAux probe l acc = some (out, fee) →
      ∀ g ∈ l, probe g = some out → fee ≤ g := by
  intro l
  induction l with
  | nil => intro acc out fee _ _ _ g hg; simp at hg
  | cons f rest ih =>
    intro acc out fee hpw hacc h g hg hpg
    have hflt : ∀ g' ∈ rest, f < g' := (List.pairwise_cons.mp hpw).1
    have hpw' : List.Pairwise (· < ·) rest := (List.pairwise_cons.mp hpw).2
    have hout0 : out ≠ 0 :=
      selAux_nonzero probe (f :: rest) acc out fee (fun a b ha => (hacc a b ha).1) h
    rw [selectFeeTierAux] at h
    rcases List.mem_cons.mp hg with rfl | hgr
    · rcases acc with _ | ⟨aout, afee⟩
      · have hs : feeStep probe none g = some (out, g) := by
          unfold feeStep; rw [hpg]; simp [hout0]
        rw [hs] at h
        exact le_of_eq (selAux_keep probe rest out g fee h)
      · obtain ⟨ha0, halt⟩ := hacc aout afee rfl
        by_cases hlt : aout < out
        · have hs : feeStep probe (some (aout, afee)) g = some (out, g) := by
            unfold feeStep; rw [hpg]; simp [hout0, hlt]
          rw [hs] at h
          exact le_of_eq (selAux_keep probe rest out g fee h)
        · have hs : feeStep probe (some (aout, afee)) g = some (aout, afee) := by
            unfold feeStep; rw [hpg]; simp [hout0, hlt]
          rw [hs] at h
          by_cases heq : aout = out
          · subst heq
            have hfe := selAux_keep probe rest aout afee fee h
            have := halt g (List.mem_cons_self g rest)
            omega
          · obtain ⟨out2, fee2, hsel, hle⟩ := selAux_acc_grows probe rest aout afee
            rw [h] at hsel
            injection hsel with hpair
            injection hpair with h1 h2
            omega
    · apply ih (feeStep probe acc f) out fee hpw' ?_ h g hgr hpg
      intro aout afee ha
      rcases acc with _ | ⟨bo, bf⟩
      · rcases feeStep_none_cases probe f with h0 | ⟨b, hp, hb, hs⟩
        · rw [h0] at ha; exact absurd ha (by simp)
        · rw [hs] at ha
          injection ha with hpair
          injection hpair with h1 h2
          subst h1; subst h2
          exact ⟨hb, hflt⟩
      · obtain ⟨hb0, hblt⟩ := hacc bo bf rfl
        rcases feeStep_some_cases probe bo bf f with hs | ⟨b, hp, hb, hlt, hs⟩
        · rw [hs] at ha
          injection ha with hpair
          injection hpair with h1 h2
          subst h1; subst h2
          exact ⟨hb0, fun g' hg' => hblt g' (List.mem_cons_of_mem f hg')⟩
        · rw [hs] at ha
          injection ha with hpair
          injection hpair with h1 h2
          subst h1; subst h2
          exact ⟨hb, hflt⟩

/-- C5: `executeSwap` probes tiers 100, 500, 3000, 10000 in that
(ascending) order; the selection is `none` exactly when every probe threw
or quoted zero; a selected `(out, fee)` is a positive quote of `fee`,
maximal among all quotes, and on ties the earliest (smallest) probed tier;
with no selection the adapter returns the no-V3-pool failure and builds no
swap, otherwise the swap uses the winning tier. -/
theorem v3_fee_tier_selection_spec (env : V3Env) (p : V3Params) (d : ℕ)
    (hnet : p.network = .BASE) (hdec : env.decimals = .ok d) :
    (selectFeeTier env.probe = none ↔
      ∀ fee ∈ FEE_TIERS, env.probe fee = none ∨ env.probe fee = some 0) ∧
    (∀ out fee, selectFeeTier env.probe = some (out, fee) →
      fee ∈ FEE_TIERS ∧ env.probe fee = some out ∧ out ≠ 0 ∧
      (∀ g ∈ FEE_TIERS, ∀ b, env.probe g = some b → b ≤ out) ∧
      (∀ g ∈ FEE_TIERS, env.probe g = some out → fee ≤ g)) ∧
    (selectFeeTier env.probe = none →
      v3ExecuteSwap env p =
        (failResult "No Uniswap V3 liquidity pool found for this token. Tried fee tiers: 0.01%, 0.05%, 0.3%, 1%.",
         none)) ∧
    (∀ out fee, selectFeeTier env.probe = some (out, fee) →
      (v3ExecuteSwap env p).2 = some fee) := by
  refine ⟨?_, ?_, ?_, ?_⟩
  · rw [selectFeeTier, selAux_none]
    simp
  · intro out fee h
    have hmem := selAux_mem env.probe FEE_TIERS none out fee h
    have hmax := selAux_max env.probe FEE_TIERS none out fee h
    have htie := selAux_tie env.probe FEE_TIERS none out fee (by decide) (by simp) h
    rcases hmem with ha | ⟨hm, hp, hz⟩
    · exact absurd ha (by simp)
    · exact ⟨hm, hp, hz, hmax, htie⟩
  · intro h
    unfold v3ExecuteSwap
    rw [hnet]
    simp only [ROUTER_ADDRESSES, QUOTER_ADDRESSES, WETH_ADDRESSES, hdec, h]
  · intro out fee h
    have hz : out ≠ 0 := selAux_nonzero env.probe FEE_TIERS none out fee (by simp) h
    unfold v3ExecuteSwap
    rw [hnet]
    simp only [ROUTER_ADDRESSES, QUOTER_ADDRESSES, WETH_ADDRESSES, hdec, h]
    simp only [hz, if_false, ite_false]
    cases env.post <;> simp

/-- Concrete V3 environment: tiers 500 and 3000 both quote 10, the rest
throw; decimals and post-pipeline succeed. -/
def v3EnvW : V3Env :=
  { decimals := .ok 18
    probe := fun f => if f = 500 then some 10 else if f = 3000 then some 10 else none
    post := .ok { gasEstimate := 100000, gasPrice := 10 ^ 9, txHash := "0xv3tx" } }

/-- Concrete V3 swap request on BASE. -/
def v3pW : V3Params :=
  { network := .BASE
    tokenAddress := "0xcccccccccccccccccccccccccccccccccccccccc"
    amountETH := 1 / 100
    slippageTolerance := 1
    walletAddress := "0xw"
    nativeTokenPriceUsd := 2000 }

/-- Witness for C5: on a tie between tiers 500 and 3000 the earlier tier
500 wins and the swap is built with it. -/
theorem v3_fee_tier_selection_spec_witness :
    selectFeeTier v3EnvW.probe = some (10, 500) ∧
    (v3ExecuteSwap v3EnvW v3pW).2 = some 500 ∧
    500 ∈ FEE_TIERS := by
  have h := v3_fee_tier_selection_spec v3EnvW v3pW 18 rfl rfl
  exact ⟨by decide, h.2.2.2 10 500 (by decide), (h.2.1 10 500 (by decide)).1⟩

end UniswapV3

/-! ### Trade journal (server/storage.ts, DatabaseStorage) -/

namespace Storage

/-- `InsertTradeConfig` (shared/schema.ts): the config payload handed to
`createConfig`.  `userId = ""` models a missing/empty (falsy) value. -/
structure InsertTradeConfig where
  userId : String
  contractAddress : String
  walletAddress : String
  network : String
  dex : String
  dexVersion : Option String
  tradeInterval : String
  tradeAmountUsd : ℚ
  maxGasRatio : ℚ
  slippageTolerance : ℚ
  isActive : Bool
deriving DecidableEq, Repr

/-- A persisted `trade_configs` row: the insert payload plus the
database-generated `id`. -/
structure TradeConfigRow extends InsertTradeConfig where
  id : String
deriving DecidableEq, Repr

/-- The `WHERE userId = ? AND network = ? AND isActive` predicate of
`getActiveConfig`. -/
def activePred (userId network : String) (r : TradeConfigRow) : Bool :=
  r.userId == userId && r.network == network && r.isActive

/-- `DatabaseStorage.getActiveConfig` (`limit 1`). -/
def getActiveConfig (configs : List TradeConfigRow) (userId network : String) :
    Option TradeConfigRow :=
  (configs.filter (activePred userId network)).head?

/-- `DatabaseStorage.deactivateConfigsForNetwork`: set `isActive = false`
on every config of `(userId, network)`. -/
def deactivateConfigsForNetwork (configs : List TradeConfigRow) (userId network : String) :
    List TradeConfigRow :=
  configs.map fun r =>
    if r.userId == userId && r.network == network then { r with isActive := false } else r

/-- `DatabaseStorage.createConfig`: deactivate the key's configs (only
when `userId` and `network` are truthy), then insert the payload as given,
returning the new row. -/
def createConfig (configs : List TradeConfigRow) (c : InsertTradeConfig) (newId : String) :
    List TradeConfigRow × TradeConfigRow :=
  let configs1 :=
    if c.userId ≠ "" ∧ c.network ≠ "" then
      deactivateConfigsForNetwork configs c.userId c.network
    else configs
  let newRow : TradeConfigRow := { c with id := newId }
  (configs1 ++ [newRow], newRow)

/-- After deactivation, no row of the key passes the active predicate. -/
theorem deactivate_kills_pred (configs : List TradeConfigRow) (userId network : String) :
    ∀ r ∈ deactivateConfigsForNetwork configs userId network,
      activePred userId network r = false := by
  intro r hr
  unfold deactivateConfigsForNetwork at hr
  rw [List.mem_map] at hr
  obtain ⟨r0, _, rfl⟩ := hr
  by_cases hkey : r0.userId == userId && r0.network == network
  · simp only [hkey, if_true]
    simp [activePred]
  · simp only [hkey, if_false]
    simp only [activePred]
    simp only [Bool.and_eq_true, beq_iff_eq] at hkey
    by_cases h1 : r0.userId = userId <;> by_cases h2 : r0.network = network <;>
      simp_all [activePred]

/-- C6 (amended): `createConfig(X)` with truthy `userId`/`network` and
`X.isActive = true` (the insert-schema default) deactivates every existing
config of `(X.userId, X.network)` and appends X; afterwards the only
active config of the key is the new row, `getActiveConfig` returns it, and
at most one config of the key is active. -/
theorem createConfig_spec (configs : List TradeConfigRow) (c : InsertTradeConfig)
    (newId : String) (hu : c.userId ≠ "") (hn : c.network ≠ "") (hact : c.isActive = true) :
    (∀ r ∈ deactivateConfigsForNetwork configs c.userId c.network,
      r.userId = c.userId → r.network = c.network → r.isActive = false) ∧
    (createConfig configs c newId).1.filter (activePred c.userId c.network) =
      [(createConfig configs c newId).2] ∧
    getActiveConfig (createConfig configs c newId).1 c.userId c.network =
      some (createConfig configs c newId).2 ∧
    ((createConfig configs c newId).1.filter (activePred c.userId c.network)).length ≤ 1 ∧
    (createConfig configs c newId).2.toInsertTradeConfig = c ∧
    (createConfig configs c newId).2.id = newId := by
  have hkill := deactivate_kills_pred configs c.userId c.network
  have hnewRow : ((createConfig configs c newId).2 : TradeConfigRow) = { c with id := newId } := rfl
  have hlist : (createConfig configs c newId).1 =
      deactivateConfigsForNetwork configs c.userId c.network ++ [{ c with id := newId }] := by
    unfold createConfig
    rw [if_pos ⟨hu, hn⟩]
  have hprednew : activePred c.userId c.network { c with id := newId } = true := by
    simp [activePred, hact]
  have hfilter : (createConfig configs c newId).1.filter (activePred c.userId c.network) =
      [{ c with id := newId }] := by
    rw [hlist, List.filter_append]
    have h1 : (deactivateConfigsForNetwork configs c.userId c.network).filter
        (activePred c.userId c.network) = [] := by
      rw [List.filter_eq_nil_iff]
      intro r hr
      simp [hkill r hr]
    rw [h1]
    simp [hprednew]
  refine ⟨?_, ?_, ?_, ?_, rfl, rfl⟩
  · intro r hr h1 h2
    have := hkill r hr
    simp only [activePred, Bool.and_eq_true, beq_iff_eq] at this
    simp only [h1, h2] at this
    simpa using this
  · exact hfilter
  · unfold getActiveConfig
    rw [hfilter]
    rfl
  · rw [hfilter]
    simp

/-- An insert payload that is explicitly inactive. -/
def cfgInactive : InsertTradeConfig :=
  { userId := "u1"
    contractAddress := "0xaaaaaaaaaaaaaaaaaaaaaaaaaaaaaaaaaaaaaaaa"
    walletAddress := "0xbbbbbbbbbbbbbbbbbbbbbbbbbbbbbbbbbbbbbbbb"
    network := "ETH"
    dex := "Uniswap"
    dexVersion := none
    tradeInterval := "5min"
    tradeAmountUsd := 10
    maxGasRatio := 4 / 5
    slippageTolerance := 5
    isActive := false }

/-- Counterexample to C6 as stated: `createConfig` inserts the payload's
own `isActive`; with `isActive = false` the new row is not active and
`getActiveConfig` does not return it. -/
theorem createConfig_counterexample :
    getActiveConfig (createConfig [] cfgInactive "c1").1 "u1" "ETH" = none ∧
    (createConfig [] cfgInactive "c1").2.isActive = false ∧
    getActiveConfig (createConfig [] cfgInactive "c1").1 "u1" "ETH" ≠
      some (createConfig [] cfgInactive "c1").2 := by
  refine ⟨rfl, rfl, ?_⟩
  intro h
  exact absurd h (by simp [getActiveConfig, createConfig, cfgInactive, activePred,
    deactivateConfigsForNetwork])

/-- Witness for the amended C6: the active version of the same payload is
returned by `getActiveConfig` right after `createConfig`. -/
theorem createConfig_spec_witness :
    getActiveConfig (createConfig [] { cfgInactive with isActive := true } "c1").1 "u1" "ETH" =
      some (createConfig [] { cfgInactive with isActive := true } "c1").2 :=
  (createConfig_spec [] { cfgInactive with isActive := true } "c1"
    (by decide) (by decide) rfl).2.2.1

/-- A persisted `trade_logs` row.  Timestamps are omitted; decimal columns
are rationals. -/
structure TradeLogRow where
  id : String
  userId : String
  configId : Option String
  network : String
  dex : String
  tokenAddress : String
  tradeType : String
  amountUsd : ℚ
  tokenAmount : Option ℚ := none
  gasFee : Option ℚ := none
  gasFeeUsd : Option ℚ := none
  status : String
  txHash : Option String := none
  errorMessage : Option String := none
  slippage : Option ℚ := none
  tokenPrice : Option ℚ := none
deriving DecidableEq, Repr

/-- `Partial<InsertTradeLog>`: `none` is an absent (skipped) field. -/
structure TradeLogUpdate where
  status : Option String := none
  txHash : Option String := none
  tokenAmount : Option ℚ := none
  gasFee : Option ℚ := none
  gasFeeUsd : Option ℚ := none
  tokenPrice : Option ℚ := none
  slippage : Option ℚ := none
  errorMessage : Option String := none
deriving Repr

/-- `db.update(tradeLogs).set(updates)` applied to one row: present
fields overwrite, absent fields are untouched. -/
def applyLogUpdate (r : TradeLogRow) (u : TradeLogUpdate) : TradeLogRow :=
  { r with
    status := u.status.getD r.status
    txHash := match u.txHash with | some v => some v | none => r.txHash
    tokenAmount := match u.tokenAmount with | some v => some v | none => r.tokenAmount
    gasFee := match u.gasFee with | some v => some v | none => r.gasFee
    gasFeeUsd := match u.gasFeeUsd with | some v => some v | none => r.gasFeeUsd
    tokenPrice := match u.tokenPrice with | some v => some v | none => r.tokenPrice
    slippage := match u.slippage with | some v => some v | none => r.slippage
    errorMessage := match u.errorMessage with | some v => some v | none => r.errorMessage }

/-- `DatabaseStorage.createTradeLog`: plain insert. -/
def createTradeLog (logs : List TradeLogRow) (r : TradeLogRow) : List TradeLogRow :=
  logs ++ [r]

/-- `DatabaseStorage.updateTradeLog`: updates the row with the given id
UNCONDITIONALLY — there is no check of the row's current status. -/
def updateTradeLog (logs : List TradeLogRow) (id : String) (u : TradeLogUpdate) :
    List TradeLogRow :=
  logs.map fun r => if r.id == id then applyLogUpdate r u else r

/-- A trade log already in the terminal `success` state. -/
def doneLog : TradeLogRow :=
  { id := "L1"
    userId := "u1"
    configId := none
    network := "ETH"
    dex := "Uniswap"
    tokenAddress := "0xaaaaaaaaaaaaaaaaaaaaaaaaaaaaaaaaaaaaaaaa"
    tradeType := "manual"
    amountUsd := 10
    status := "success"
    txHash := some "0xdeadbeef" }

/-- C7 evidence: `updateTradeLog` applied to a `success` row overwrites it
— the code never refuses an update on a terminal row. -/
theorem updateTradeLog_mutates_terminal :
    doneLog.status = "success" ∧
    (updateTradeLog [doneLog] "L1"
      { status := some "pending", errorMessage := some "overwritten" }).map
        TradeLogRow.status = ["pending"] ∧
    (updateTradeLog [doneLog] "L1" { status := some "failed" }).map
        TradeLogRow.status = ["failed"] := by
  refine ⟨rfl, ?_, ?_⟩ <;> rfl

/-- A `bot_status` row (unique per `(userId, network)`); timestamps are
abstract ticks. -/
structure BotStatusRow where
  userId : String
  network : String
  isRunning : Bool
  activeConfigId : Option String := none
  lastTradeAt : Option ℕ := none
  nextTradeAt : Option ℕ := none
  totalTradesCount : ℕ := 0
  successfulTradesCount : ℕ := 0
  failedTradesCount : ℕ := 0
  totalVolumeUsd : ℚ := 0
deriving DecidableEq, Repr

/-- `Partial<InsertBotStatus>` restricted to the fields the scheduler
writes (the key fields are never updated). -/
structure BotStatusUpdate where
  isRunning : Option Bool := none
  activeConfigId : Option (Option String) := none
  lastTradeAt : Option (Option ℕ) := none
  nextTradeAt : Option (Option ℕ) := none
  totalTradesCount : Option ℕ := none
  successfulTradesCount : Option ℕ := none
  failedTradesCount : Option ℕ := none
  totalVolumeUsd : Option ℚ := none
deriving Repr

/-- `.set({...updates})` on one `bot_status` row. -/
def applyBotStatusUpdate (r : BotStatusRow) (u : BotStatusUpdate) : BotStatusRow :=
  { r with
    isRunning := u.isRunning.getD r.isRunning
    activeConfigId := u.activeConfigId.getD r.activeConfigId
    lastTradeAt := u.lastTradeAt.getD r.lastTradeAt
    nextTradeAt := u.nextTradeAt.getD r.nextTradeAt
    totalTradesCount := u.totalTradesCount.getD r.totalTradesCount
    successfulTradesCount := u.successfulTradesCount.getD r.successfulTradesCount
    failedTradesCount := u.failedTradesCount.getD r.failedTradesCount
    totalVolumeUsd := u.totalVolumeUsd.getD r.totalVolumeUsd }

/-- The `(userId, network)` key predicate of the bot-status queries. -/
def statusPred (userId network : String) (r : BotStatusRow) : Bool :=
  r.userId == userId && r.network == network

/-- `DatabaseStorage.getBotStatus`. -/
def getBotStatus (statuses : List BotStatusRow) (userId network : String) :
    Option BotStatusRow :=
  (statuses.filter (statusPred userId network)).head?

/-- `DatabaseStorage.updateBotStatus`: update every row of the key. -/
def updateBotStatus (statuses : List BotStatusRow) (userId network : String)
    (u : BotStatusUpdate) : List BotStatusRow :=
  statuses.map fun r => if statusPred userId network r then applyBotStatusUpdate r u else r

/-- `updateBotStatus` leaves the key fields unchanged, so `getBotStatus`
afterwards returns the updated image of what it returned before. -/
theorem getBotStatus_update (statuses : List BotStatusRow) (userId network : String)
    (u : BotStatusUpdate) :
    getBotStatus (updateBotStatus statuses userId network u) userId network =
      (getBotStatus statuses userId network).map (applyBotStatusUpdate · u) := by
  induction statuses with
  | nil => rfl
  | cons r rest ih =>
    unfold getBotStatus updateBotStatus at ih ⊢
    by_cases hp : statusPred userId network r
    · have hp' : statusPred userId network (applyBotStatusUpdate r u) = true := by
        simp only [statusPred] at hp ⊢
        exact hp
      simp [hp, hp']
    · have hp'' : statusPred userId network r = false := by
        simpa using hp
      simpa [hp''] using ih

end Storage

/-! ### Bot scheduler (server/botScheduler.ts) -/

namespace Sched

open Storage

/-- `BotScheduler.executeTrade` (the tick handler), with the trading
service's outcome `result` supplied as input: create the pending log,
write the terminal log, and advance the `BotStatus` counters when the
key's row exists.  `now`/`next` stand for `new Date()` and
`calculateNextTradeTime`. -/
def schedulerTick (logs : List TradeLogRow) (statuses : List BotStatusRow)
    (userId : String) (config : TradeConfigRow) (result : TradeResult)
    (newLogId : String) (now next : ℕ) : List TradeLogRow × List BotStatusRow :=
  let pending : TradeLogRow :=
    { id := newLogId
      userId := userId
      configId := some config.id
      network := config.network
      dex := config.dex
      tokenAddress := config.contractAddress
      tradeType := "automated"
      amountUsd := config.tradeAmountUsd
      status := "pending" }
  let logs1 := createTradeLog logs pending
  let logs2 := updateTradeLog logs1 newLogId
    { status := some (if result.success then "success" else "failed")
      txHash := result.txHash
      tokenAmount := result.tokenAmount
      gasFee := result.gasFee
      gasFeeUsd := result.gasFeeUsd
      tokenPrice := result.tokenPrice
      slippage := result.slippage
      errorMessage := result.errorMessage }
  let statuses2 :=
    match getBotStatus statuses userId config.network with
    | none => statuses
    | some bs =>
      updateBotStatus statuses userId config.network
        { lastTradeAt := some (some now)
          nextTradeAt := some (some next)
          totalTradesCount := some (bs.totalTradesCount + 1)
          successfulTradesCount := some (if result.success then
            bs.successfulTradesCount + 1 else bs.successfulTradesCount)
          failedTradesCount := some (if result.success then
            bs.failedTradesCount else bs.failedTradesCount + 1)
          totalVolumeUsd := some (if result.success then
            jsToFixed 2 (bs.totalVolumeUsd + config.tradeAmountUsd) else bs.totalVolumeUsd) }
  (logs2, statuses2)

/-- C8: after a tick whose key has a `BotStatus` row (with cent-precision
volume figures, as the scale-2 decimal columns guarantee),
`totalTradesCount` rises by exactly 1, exactly one of the success/failure
counters rises by 1 matching the outcome, and `totalVolumeUsd` grows by
`amountUsd` exactly on success. -/
theorem scheduler_counters_spec (logs : List TradeLogRow) (statuses : List BotStatusRow)
    (userId : String) (config : TradeConfigRow) (result : TradeResult)
    (newLogId : String) (now next : ℕ) (bs : BotStatusRow)
    (hbs : getBotStatus statuses userId config.network = some bs)
    (hv : ∃ z : ℤ, bs.totalVolumeUsd * 100 = (z : ℚ))
    (ha : ∃ z : ℤ, config.tradeAmountUsd * 100 = (z : ℚ)) :
    ∃ bs',
      getBotStatus (schedulerTick logs statuses userId config result newLogId now next).2
        userId config.network = some bs' ∧
      bs'.totalTradesCount = bs.totalTradesCount + 1 ∧
      bs'.successfulTradesCount + bs'.failedTradesCount =
        bs.successfulTradesCount + bs.failedTradesCount + 1 ∧
      (result.success = true →
        bs'.successfulTradesCount = bs.successfulTradesCount + 1 ∧
        bs'.failedTradesCount = bs.failedTradesCount ∧
        bs'.totalVolumeUsd = bs.totalVolumeUsd + config.tradeAmountUsd) ∧
      (result.success = false →
        bs'.failedTradesCount = bs.failedTradesCount + 1 ∧
        bs'.successfulTradesCount = bs.successfulTradesCount ∧
        bs'.totalVolumeUsd = bs.totalVolumeUsd) := by
  have hvol : jsToFixed 2 (bs.totalVolumeUsd + config.tradeAmountUsd) =
      bs.totalVolumeUsd + config.tradeAmountUsd := by
    obtain ⟨z1, hz1⟩ := hv
    obtain ⟨z2, hz2⟩ := ha
    refine jsToFixed_eq_self ⟨z1 + z2, ?_⟩
    push_cast
    rw [show ((10 : ℚ) ^ 2) = 100 from by norm_num]
    rw [add_mul, hz1, hz2]
  have hsnd : (schedulerTick logs statuses userId config result newLogId now next).2 =
      updateBotStatus statuses userId config.network
        { lastTradeAt := some (some now)
          nextTradeAt := some (some next)
          totalTradesCount := some (bs.totalTradesCount + 1)
          successfulTradesCount := some (if result.success then
            bs.successfulTradesCount + 1 else bs.successfulTradesCount)
          failedTradesCount := some (if result.success then
            bs.failedTradesCount else bs.failedTradesCount + 1)
          totalVolumeUsd := some (if result.success then
            jsToFixed 2 (bs.totalVolumeUsd + config.tradeAmountUsd) else bs.totalVolumeUsd) } := by
    unfold schedulerTick
    rw [hbs]
  refine ⟨_, by rw [hsnd, getBotStatus_update, hbs]; rfl, ?_, ?_, ?_, ?_⟩ <;>
    rcases hres : result.success with _ | _ <;>
    simp [applyBotStatusUpdate, hres, hvol] <;> omega

/-- A bot status row with some history. -/
def bsW : BotStatusRow :=
  { userId := "u1"
    network := "ETH"
    isRunning := true
    totalTradesCount := 3
    successfulTradesCount := 2
    failedTradesCount := 1
    totalVolumeUsd := 20 }

/-- The active config the tick runs with. -/
def configW : TradeConfigRow := { Storage.cfgInactive with isActive := true, id := "c1" }

/-- A successful adapter outcome. -/
def resultW : TradeResult := { success := true, txHash := some "0xsuccess" }

/-- Witness for C8 at a concrete successful tick. -/
theorem scheduler_counters_spec_witness :
    ∃ bs',
      getBotStatus (schedulerTick [] [bsW] "u1" configW resultW "L9" 5 10).2
        "u1" configW.network = some bs' ∧
      bs'.totalTradesCount = bsW.totalTradesCount + 1 ∧
      bs'.successfulTradesCount + bs'.failedTradesCount =
        bsW.successfulTradesCount + bsW.failedTradesCount + 1 ∧
      (resultW.success = true →
        bs'.successfulTradesCount = bsW.successfulTradesCount + 1 ∧
        bs'.failedTradesCount = bsW.failedTradesCount ∧
        bs'.totalVolumeUsd = bsW.totalVolumeUsd + configW.tradeAmountUsd) ∧
      (resultW.success = false →
        bs'.failedTradesCount = bsW.failedTradesCount + 1 ∧
        bs'.successfulTradesCount = bsW.successfulTradesCount ∧
        bs'.totalVolumeUsd = bsW.totalVolumeUsd) :=
  scheduler_counters_spec [] [bsW] "u1" configW resultW "L9" 5 10 bsW rfl
    ⟨2000, by norm_num [bsW]⟩ ⟨1000, by norm_num [configW, Storage.cfgInactive]⟩

/-- Scheduler concurrency state: the in-memory `scheduledTasks` keys and,
per key, how many `executeTrade` tick executions are currently in flight. -/
structure SchedState where
  tasks : List String
  running : String → ℕ

/-- `BotScheduler.getBotKey`. -/
def getBotKey (userId network : String) : String := userId ++ ":" ++ network

/-- `BotScheduler.stopBot`: cancel and drop the key's task (a running tick
is NOT interrupted). -/
def stopBot (s : SchedState) (userId network : String) : SchedState :=
  { s with tasks := s.tasks.erase (getBotKey userId network) }

/-- `BotScheduler.startBot` (scheduling part): stop any existing task for
the key, then install the cron task whose callback is
`async () => { await this.executeTrade(userId, config) }`. -/
def startBot (s : SchedState) (userId network : String) : SchedState :=
  let s1 := stopBot s userId network
  { s1 with tasks := getBotKey userId network :: s1.tasks }

/-- A cron firing for an installed task.  The callback registered in
`startBot` invokes `executeTrade` unconditionally — neither the scheduler
nor the callback checks whether a previous tick of the key is still in
flight, and node-cron (default options) runs the async callback on every
schedule match without awaiting the previous run — so the in-flight count
rises regardless of its current value. -/
def fireTick (s : SchedState) (key : String) : SchedState :=
  if key ∈ s.tasks then
    { s with running := fun k => if k = key then s.running k + 1 else s.running k }
  else s

/-- A tick execution finishing. -/
def finishTick (s : SchedState) (key : String) : SchedState :=
  { s with running := fun k => if k = key then s.running k - 1 else s.running k }

/-- The initial scheduler state. -/
def sched0 : SchedState := { tasks := [], running := fun _ => 0 }

/-- C3 evidence: start a bot and let the cron fire twice before the first
tick finishes — both executions of `executeTrade` for the same
`(userId, network)` key are in flight at once; nothing in the code skips
the second firing. -/
theorem scheduler_overlap_counterexample :
    (fireTick (fireTick (startBot sched0 "u1" "ETH") (getBotKey "u1" "ETH"))
        (getBotKey "u1" "ETH")).running (getBotKey "u1" "ETH") = 2 ∧
    (startBot sched0 "u1" "ETH").running (getBotKey "u1" "ETH") = 0 := by
  constructor <;> rfl

end Sched

end ChainPlus
